import Mathlib

/- Verification development for the email MCP server source file
`mcp_email_reader.py`.  The Python functions are shallowly embedded as
executable Lean definitions: the IMAP/SMTP sessions and the filesystem are
modelled as explicit parameters, network and file effects are recorded in an
event trace, Python byte strings are `List Nat`, and Python's optional string
parameters are `Option String` (with Python truthiness made explicit).
MIME header decoding of subject and filename headers
(`email.header.decode_header`) is a standard-library call; fetched messages
are modelled with those headers already in decoded textual form, while
`decode_mime_words` itself is embedded at the level of the token list that
`decode_header` returns. -/

/- ---------------------------------------------------------------------
Python string primitives, embedded over `List Char` so that everything
reduces inside the kernel.
--------------------------------------------------------------------- -/

/-- ASCII lowering of one character; models Python `str.lower()` on the
ASCII inputs exercised here. -/
def charLower (c : Char) : Char :=
  if 'A' ≤ c ∧ c ≤ 'Z' then Char.ofNat (c.toNat + 32) else c

/-- Models Python `str.lower()` (ASCII fragment). -/
def pyLower (s : String) : String :=
  String.mk (s.data.map charLower)

/-- Models Python `str.split(sep)` for a one-character separator:
empty pieces are kept and the empty string yields `[""]`. -/
def splitOnCh (c : Char) : List Char → List (List Char)
  | [] => [[]]
  | x :: xs =>
    match splitOnCh c xs with
    | [] => [[]]
    | g :: gs => if x = c then [] :: g :: gs else (x :: g) :: gs

/-- Whether `p` is a leading piece of `l`. -/
def listStartsWith : List Char → List Char → Bool
  | [], _ => true
  | _ :: _, [] => false
  | p :: ps, x :: xs => p = x && listStartsWith ps xs

/-- Whether `p` occurs as a contiguous piece of `l`. -/
def listContainsSub (p : List Char) : List Char → Bool
  | [] => listStartsWith p []
  | x :: xs => listStartsWith p (x :: xs) || listContainsSub p xs

/-- Models Python membership `pat in s` on strings (contiguous piece). -/
def strContains (s pat : String) : Bool :=
  listContainsSub pat.data s.data

/-- The characters stripped by Python `str.strip()` (ASCII whitespace). -/
def isPySpace (c : Char) : Bool :=
  c = ' ' || c = '\t' || c = '\n' || c = '\r' || c = '\x0b' || c = '\x0c'

/-- Models Python `str.strip()`. -/
def pyStrip (s : String) : String :=
  String.mk (((s.data.dropWhile isPySpace).reverse.dropWhile isPySpace).reverse)

/-- Models Python slicing `s[:n]` on a `str` (first `n` characters). -/
def pySlice (s : String) (n : Nat) : String :=
  String.mk (s.data.take n)

/-- Models Python `''.join(parts)`. -/
def strJoin : List String → String
  | [] => ""
  | s :: rest => s ++ strJoin rest

/-- Python truthiness of an optional string parameter: `None` and the
empty string are falsy, exactly as the source's `if field:` guards. -/
def truthy : Option String → Bool
  | none => false
  | some s => s != ""

/-- Models Python `a or default` on strings (used for the body sentinels). -/
def orDefault (s d : String) : String :=
  if s = "" then d else s

/-- Models `os.path.basename` for POSIX paths (last `/`-separated piece). -/
def pyBasename (p : String) : String :=
  (((splitOnCh '/' p.data).map String.mk).getLastD p)

/-- Models `os.path.join(dir, fn)` for POSIX paths. -/
def pyPathJoin (dir fn : String) : String :=
  if fn.data.headD ' ' = '/' then fn
  else if dir = "" then fn
  else if dir.data.getLastD ' ' = '/' then dir ++ fn
  else dir ++ "/" ++ fn

/-- Models `[e.strip() for e in s.split(",")]` from `send_email`. -/
def splitStrip (s : String) : List String :=
  ((splitOnCh ',' s.data).map String.mk).map pyStrip

/- ---------------------------------------------------------------------
Dates: `datetime.strptime(s, "%Y-%m-%d")` and `strftime("%d-%b-%Y")`.
--------------------------------------------------------------------- -/

/-- Numeric value of a digit string. -/
def natOfDigits (l : List Char) : Nat :=
  l.foldl (fun a c => a * 10 + (c.toNat - 48)) 0

/-- Gregorian leap-year test (as in Python's `datetime`). -/
def isLeapYear (y : Nat) : Bool :=
  (y % 4 == 0 && y % 100 != 0) || y % 400 == 0

/-- Days in a month (as validated by Python's `datetime` constructor). -/
def daysInMonth (y m : Nat) : Nat :=
  if m = 2 then (if isLeapYear y then 29 else 28)
  else if m = 4 ∨ m = 6 ∨ m = 9 ∨ m = 11 then 30
  else 31

/-- Models `datetime.strptime(s, "%Y-%m-%d").date()`: the year is exactly
four digits, month and day are one or two digits in range (CPython's
`_strptime` patterns), the whole string must be consumed, and the
`datetime` constructor additionally checks the day against the month and
rejects year zero.  Returns `(year, month, day)` or `none` (a raised
`ValueError`). -/
def strptimeYmd (s : String) : Option (Nat × Nat × Nat) :=
  match splitOnCh '-' s.data with
  | [ys, ms, ds] =>
    if ys.length = 4 ∧ ys.all Char.isDigit
        ∧ (ms.length = 1 ∨ ms.length = 2) ∧ ms.all Char.isDigit
        ∧ (ds.length = 1 ∨ ds.length = 2) ∧ ds.all Char.isDigit then
      let y := natOfDigits ys
      let m := natOfDigits ms
      let d := natOfDigits ds
      if 1 ≤ y ∧ 1 ≤ m ∧ m ≤ 12 ∧ 1 ≤ d ∧ d ≤ daysInMonth y m then
        some (y, m, d)
      else none
    else none
  | _ => none

/-- C-locale abbreviated month names (`%b`). -/
def monthAbbr : Nat → String
  | 1 => "Jan" | 2 => "Feb" | 3 => "Mar" | 4 => "Apr"
  | 5 => "May" | 6 => "Jun" | 7 => "Jul" | 8 => "Aug"
  | 9 => "Sep" | 10 => "Oct" | 11 => "Nov" | 12 => "Dec"
  | _ => ""

/-- Zero-padded two-digit number (`%d`). -/
def pad2 (n : Nat) : String :=
  if n < 10 then "0" ++ toString n else toString n

/-- Zero-padded four-digit number (`%Y`). -/
def pad4 (n : Nat) : String :=
  if n < 10 then "000" ++ toString n
  else if n < 100 then "00" ++ toString n
  else if n < 1000 then "0" ++ toString n
  else toString n

/-- Models `date.strftime("%d-%b-%Y")`, the transport-native day-month-year
form emitted into SINCE/BEFORE criteria. -/
def strftimeDbY (d : Nat × Nat × Nat) : String :=
  pad2 d.2.2 ++ "-" ++ monthAbbr d.2.1 ++ "-" ++ pad4 d.1

/- ---------------------------------------------------------------------
Byte-string decoding: `bytes.decode(charset)` with strict and with
`errors="ignore"` handling, for the codecs exercised by this source.
--------------------------------------------------------------------- -/

/-- UTF-8 continuation byte. -/
def isCont (b : Nat) : Bool :=
  decide (0x80 ≤ b ∧ b ≤ 0xBF)

/-- First continuation byte constraint for a three-byte UTF-8 lead. -/
def utf8Cont2Ok (b b1 : Nat) : Bool :=
  if b = 0xE0 then decide (0xA0 ≤ b1 ∧ b1 ≤ 0xBF)
  else if b = 0xED then decide (0x80 ≤ b1 ∧ b1 ≤ 0x9F)
  else isCont b1

/-- First continuation byte constraint for a four-byte UTF-8 lead. -/
def utf8Cont3Ok (b b1 : Nat) : Bool :=
  if b = 0xF0 then decide (0x90 ≤ b1 ∧ b1 ≤ 0xBF)
  else if b = 0xF4 then decide (0x80 ≤ b1 ∧ b1 ≤ 0x8F)
  else isCont b1

/-- Strict UTF-8 decoding of a byte sequence; `none` models a raised
`UnicodeDecodeError`. -/
def utf8DecodeStrictChars : List Nat → Option (List Char)
  | [] => some []
  | b :: rest =>
    if b ≤ 0x7F then (utf8DecodeStrictChars rest).map (Char.ofNat b :: ·)
    else if 0xC2 ≤ b ∧ b ≤ 0xDF then
      match rest with
      | b1 :: rest1 =>
        if isCont b1 then
          (utf8DecodeStrictChars rest1).map
            (Char.ofNat ((b - 0xC0) * 64 + (b1 - 0x80)) :: ·)
        else none
      | [] => none
    else if 0xE0 ≤ b ∧ b ≤ 0xEF then
      match rest with
      | b1 :: b2 :: rest2 =>
        if utf8Cont2Ok b b1 && isCont b2 then
          (utf8DecodeStrictChars rest2).map
            (Char.ofNat ((b - 0xE0) * 4096 + (b1 - 0x80) * 64 + (b2 - 0x80)) :: ·)
        else none
      | _ => none
    else if 0xF0 ≤ b ∧ b ≤ 0xF4 then
      match rest with
      | b1 :: b2 :: b3 :: rest3 =>
        if utf8Cont3Ok b b1 && isCont b2 && isCont b3 then
          (utf8DecodeStrictChars rest3).map
            (Char.ofNat ((b - 0xF0) * 262144 + (b1 - 0x80) * 4096
              + (b2 - 0x80) * 64 + (b3 - 0x80)) :: ·)
        else none
      | _ => none
    else none

/-- UTF-8 decoding with `errors="ignore"`: ill-formed bytes are skipped
(the error handler granularity is modelled as byte-by-byte skipping). -/
def utf8DecodeIgnoreChars : List Nat → List Char
  | [] => []
  | b :: rest =>
    if b ≤ 0x7F then Char.ofNat b :: utf8DecodeIgnoreChars rest
    else if 0xC2 ≤ b ∧ b ≤ 0xDF then
      match rest with
      | b1 :: rest1 =>
        if isCont b1 then
          Char.ofNat ((b - 0xC0) * 64 + (b1 - 0x80)) :: utf8DecodeIgnoreChars rest1
        else utf8DecodeIgnoreChars (b1 :: rest1)
      | [] => []
    else if 0xE0 ≤ b ∧ b ≤ 0xEF then
      match rest with
      | b1 :: b2 :: rest2 =>
        if utf8Cont2Ok b b1 && isCont b2 then
          Char.ofNat ((b - 0xE0) * 4096 + (b1 - 0x80) * 64 + (b2 - 0x80))
            :: utf8DecodeIgnoreChars rest2
        else utf8DecodeIgnoreChars (b1 :: b2 :: rest2)
      | _ => []
    else if 0xF0 ≤ b ∧ b ≤ 0xF4 then
      match rest with
      | b1 :: b2 :: b3 :: rest3 =>
        if utf8Cont3Ok b b1 && isCont b2 && isCont b3 then
          Char.ofNat ((b - 0xF0) * 262144 + (b1 - 0x80) * 4096
              + (b2 - 0x80) * 64 + (b3 - 0x80)) :: utf8DecodeIgnoreChars rest3
        else utf8DecodeIgnoreChars (b1 :: b2 :: b3 :: rest3)
      | _ => []
    else utf8DecodeIgnoreChars rest

/-- Strict ASCII decoding; `none` models a raised `UnicodeDecodeError`. -/
def asciiDecodeStrictChars (bs : List Nat) : Option (List Char) :=
  if bs.all (· ≤ 0x7F) then some (bs.map Char.ofNat) else none

/-- Models `bytes.decode(charset)` (strict).  The codec registry covers the
charsets exercised by this development; an unknown codec name raises
`LookupError`, modelled as `none` like a decode failure (both propagate). -/
def lookupDecode (charset : String) (bs : List Nat) : Option String :=
  let c := pyLower charset
  if c = "utf-8" ∨ c = "utf8" ∨ c = "u8" then
    (utf8DecodeStrictChars bs).map String.mk
  else if c = "ascii" ∨ c = "us-ascii" then
    (asciiDecodeStrictChars bs).map String.mk
  else if c = "latin-1" ∨ c = "latin1" ∨ c = "iso-8859-1" ∨ c = "iso8859-1" then
    some (String.mk (bs.map Char.ofNat))
  else none

/-- Models `bytes.decode(charset, errors="ignore")`: total on known codecs,
while an unknown codec name still raises `LookupError` (`none`). -/
def lookupDecodeIgnore (charset : String) (bs : List Nat) : Option String :=
  let c := pyLower charset
  if c = "utf-8" ∨ c = "utf8" ∨ c = "u8" then
    some (String.mk (utf8DecodeIgnoreChars bs))
  else if c = "ascii" ∨ c = "us-ascii" then
    some (String.mk ((bs.filter (· ≤ 0x7F)).map Char.ofNat))
  else if c = "latin-1" ∨ c = "latin1" ∨ c = "iso-8859-1" ∨ c = "iso8859-1" then
    some (String.mk (bs.map Char.ofNat))
  else none

/-- Models the Python expression `enc or "utf-8"`. -/
def encOrUtf8 : Option String → String
  | none => "utf-8"
  | some e => if e = "" then "utf-8" else e

/- ---------------------------------------------------------------------
decode_mime_words (source lines 57-63).  The standard-library call
`decode_header(s)` yields a list of `(bytes-or-str, charset-or-None)`
tokens; the function is embedded over that token list.  Each bytes token
is decoded strictly (`part.decode(enc or "utf-8")`, no errors handler in
the source), so one failing token raises and the whole call yields `none`.
--------------------------------------------------------------------- -/

/-- One token of the list returned by `email.header.decode_header`. -/
inductive HPart where
  | bytes (bs : List Nat)
  | str (s : String)
deriving DecidableEq

/-- A decode-header token together with its declared charset. -/
abbrev HToken := HPart × Option String

/-- Decoding of one token: bytes tokens go through the declared charset
(utf-8 when absent), str tokens pass through unchanged. -/
def decodeTok : HToken → Option String
  | (HPart.str s, _) => some s
  | (HPart.bytes bs, enc) => lookupDecode (encOrUtf8 enc) bs

/-- Decoding of every token, failing as a whole if any token fails. -/
def decodeToks : List HToken → Option (List String)
  | [] => some []
  | t :: rest =>
    match decodeTok t, decodeToks rest with
    | some s, some l => some (s :: l)
    | _, _ => none

/-- Embedding of `decode_mime_words` (source lines 57-63): join of the
per-token decodes, `none` when one of them raises. -/
def decode_mime_words (tokens : List HToken) : Option String :=
  (decodeToks tokens).map strJoin

/- ---------------------------------------------------------------------
Fetched-message model.  The source consumes a parsed message only through
`msg.walk()` (the message itself first, then nested parts in document
order), `msg.is_multipart()`, the root part's own content accessors, and
three address headers.  A message is therefore modelled by its root part,
the remaining walk list, a multipart flag and the decoded header texts
(`decode_mime_words` on Subject and on filenames is modelled as already
resolved; its own behaviour is verified separately above).
--------------------------------------------------------------------- -/

/-- One part of a parsed MIME message as the source accesses it. -/
structure MimePart where
  contentType : String
  /-- Raw value of the Content-Disposition header (`part.get(...)`),
  `none` when the header is absent. -/
  dispoHeader : Option String
  /-- Result of `part.get_filename()`, already in decoded text form. -/
  filename : Option String
  /-- Result of `part.get_content_charset()`. -/
  charset : Option String
  /-- Result of `part.get_payload(decode=True)`; `none` models a missing
  (undecodable) payload, whose use raises `AttributeError`. -/
  payload : Option (List Nat)
deriving DecidableEq

/-- A parsed message: address headers in decoded text form plus the part
walk. -/
structure PyMsg where
  subject : Option String
  fromH : Option String
  dateH : Option String
  root : MimePart
  subparts : List MimePart
  multipart : Bool
deriving DecidableEq

/-- Models `msg.walk()`: the message itself first, then nested parts. -/
def PyMsg.walk (m : PyMsg) : List MimePart :=
  m.root :: m.subparts

/-- Models `part.get_content_disposition()`: main value of the raw header,
lowercased and stripped, or `None` when the header is absent. -/
def get_content_disposition (p : MimePart) : Option String :=
  match p.dispoHeader with
  | none => none
  | some v =>
    pyStrip (pyLower (String.mk ((splitOnCh ';' v.data).headD [])))

/-- The `extract_email_bodies` guard on a part: the raw disposition header
(defaulted to the empty string) must not contain "attachment". -/
def partEligible (p : MimePart) : Bool :=
  !(strContains (p.dispoHeader.getD ("")) ("attachment"))

/-- The multipart loop of `extract_email_bodies` (source lines 73-88):
state is the pair of accumulated plain/html bodies; a part only fills a
slot that is still falsy, and any exception inside the try block
(missing payload, unknown codec) skips the part. -/
def bodiesWalk : List MimePart → String → String → String × String
  | [], t, h => (t, h)
  | p :: rest, t, h =>
    if partEligible p then
      if p.contentType = "text/plain" ∧ t = "" then
        match p.payload with
        | none => bodiesWalk rest t h
        | some bs =>
          match lookupDecodeIgnore (encOrUtf8 p.charset) bs with
          | none => bodiesWalk rest t h
          | some s => bodiesWalk rest s h
      else if p.contentType = "text/html" ∧ h = "" then
        match p.payload with
        | none => bodiesWalk rest t h
        | some bs =>
          match lookupDecodeIgnore (encOrUtf8 p.charset) bs with
          | none => bodiesWalk rest t h
          | some s => bodiesWalk rest t s
      else bodiesWalk rest t h
    else bodiesWalk rest t h

/-- The final result shaping of `extract_email_bodies`: strip both bodies
and replace empty results by the sentinel strings. -/
def finalizeBodies (t h : String) : String × String :=
  (orDefault (pyStrip t) ("(No plain text content found)"),
   orDefault (pyStrip h) ("(No HTML content found)"))

/-- Embedding of `extract_email_bodies` (source lines 65-102).  The
multipart branch is total (its try/except swallows per-part failures);
the non-multipart branch has no handler, so a missing payload or an
unknown codec raises out of the function, modelled as `none`. -/
def extract_email_bodies (m : PyMsg) : Option (String × String) :=
  if m.multipart then
    let r := bodiesWalk m.walk "" ""
    some (finalizeBodies r.1 r.2)
  else
    if m.root.contentType = "text/plain" then
      match m.root.payload with
      | none => none
      | some bs =>
        match lookupDecodeIgnore (encOrUtf8 m.root.charset) bs with
        | none => none
        | some s => some (finalizeBodies s "")
    else if m.root.contentType = "text/html" then
      match m.root.payload with
      | none => none
      | some bs =>
        match lookupDecodeIgnore (encOrUtf8 m.root.charset) bs with
        | none => none
        | some s => some (finalizeBodies "" s)
    else some (finalizeBodies "" "")

/-- Embedding of `get_attachment_names` (source lines 104-112): walk the
parts, keep those whose parsed disposition is "attachment" and whose
filename is truthy, in document order. -/
def get_attachment_names (m : PyMsg) : List String :=
  m.walk.filterMap fun p =>
    if get_content_disposition p = some ("attachment") then
      match p.filename with
      | some fn => if fn = "" then none else some fn
      | none => none
    else none

/-- Specification-side view used for the first-match analysis of the body
extractor: the successful payload decodes of the eligible parts of one
content type, in walk order (failed decodes and missing payloads are
dropped, exactly as the loop skips them). -/
def decodedCandidates (ct : String) (ps : List MimePart) : List String :=
  ps.filterMap fun p =>
    if partEligible p && p.contentType = ct then
      p.payload.bind fun bs => lookupDecodeIgnore (encOrUtf8 p.charset) bs
    else none

/-- First non-empty string of a list, or the empty string. -/
def firstNonEmpty (l : List String) : String :=
  (l.find? (fun s => s != "")).getD ("")

/- ---------------------------------------------------------------------
Transport model: events record every IMAP/SMTP/filesystem effect in the
order the source performs them; the sessions are modelled as explicit
behaviour records.
--------------------------------------------------------------------- -/

/-- One body or attachment part of the outgoing MIME message.  The
attachment payload is kept as the raw file bytes; the base64 transfer
encoding applied by `encoders.encode_base64` is a serialization detail. -/
inductive OutPart where
  | text (subtype : String) (content : String)
  | file (filename : String) (payload : List Nat)
deriving DecidableEq

/-- The outgoing MIME message: the explicitly assigned address headers, in
assignment order, plus the attached parts.  (Content-Type and
MIME-Version bookkeeping headers set by the `MIMEMultipart` constructor
are represented structurally by the parts list.) -/
structure OutMsg where
  headers : List (String × String)
  parts : List OutPart
deriving DecidableEq

/-- Transport and filesystem effects, in program order. -/
inductive Event where
  | connect
  | selectFolder (folder : String)
  | search (criteria : List String)
  | fetch (msgId : Nat)
  | makeDirs (dir : String)
  | writeFile (path : String) (payload : List Nat)
  | smtpConnect
  | smtpSend (msg : OutMsg) (recipients : List String)
  | smtpQuit
deriving DecidableEq

/-- Behaviour of the IMAP session for one invocation: whether
`connect_to_email` succeeds (with the error string it would otherwise
return), the identifier set a search yields, and the parsed message a
fetch yields. -/
structure ImapServer where
  connectOk : Bool
  connectErr : String
  searchFn : List String → List Nat
  fetchFn : Nat → PyMsg

/-- Behaviour of the SMTP session: whether `connect_to_smtp` succeeds,
with the exception text otherwise. -/
structure SmtpSrv where
  ok : Bool
  errMsg : String

/- ---------------------------------------------------------------------
Search criteria building (inline in the source; the flat criteria list
[b'FROM', sender, b'TEXT', text, ...] is modelled as a flat string list).
--------------------------------------------------------------------- -/

/-- Embedding of the criteria-building block of `search_emails` (source
lines 214-238): sequential appends guarded by Python truthiness, with an
early error return when a supplied date fails to parse. -/
def buildCriteriaSearch (sender_filter : Option String) (search_string : String)
    (since_date before_date : Option String) : Except String (List String) :=
  let criteria : List String := []
  let criteria :=
    if truthy sender_filter then criteria ++ ["FROM", sender_filter.getD ("")]
    else criteria
  let criteria :=
    if search_string != "" then criteria ++ ["TEXT", search_string]
    else criteria
  match (if truthy since_date then
          match strptimeYmd (since_date.getD ("")) with
          | some d => Except.ok (criteria ++ ["SINCE", strftimeDbY d])
          | none => Except.error ("Invalid format for since_date. Use YYYY-MM-DD.")
        else Except.ok criteria) with
  | Except.error e => Except.error e
  | Except.ok criteria =>
    if truthy before_date then
      match strptimeYmd (before_date.getD ("")) with
      | some d => Except.ok (criteria ++ ["BEFORE", strftimeDbY d])
      | none => Except.error ("Invalid format for before_date. Use YYYY-MM-DD.")
    else Except.ok criteria

/-- Embedding of the criteria-building block of `download_attachment`
(source lines 310-321): same structure, no before-date, different error
text. -/
def buildCriteriaDownload (sender_filter : Option String) (search_string : String)
    (since_date : Option String) : Except String (List String) :=
  let criteria : List String := []
  let criteria :=
    if truthy sender_filter then criteria ++ ["FROM", sender_filter.getD ("")]
    else criteria
  let criteria :=
    if search_string != "" then criteria ++ ["TEXT", search_string]
    else criteria
  if truthy since_date then
    match strptimeYmd (since_date.getD ("")) with
    | some d => Except.ok (criteria ++ ["SINCE", strftimeDbY d])
    | none => Except.error ("Invalid date format for \x27since_date\x27. Use YYYY-MM-DD.")
  else Except.ok criteria

/- ---------------------------------------------------------------------
search_emails (source lines 190-280).
--------------------------------------------------------------------- -/

/-- One caller-facing email summary (the dict built at source lines
262-271; the optional `body_html` key is an `Option`). -/
structure EmailData where
  subject : String
  sender : String
  date : String
  body : String
  attachments : List String
  body_html : Option String
deriving DecidableEq

/-- The summary dict literal of the search loop (source lines 262-271):
the body is the plain text sliced to 5000 characters, the html body is
present, untruncated, only when `include_html` is requested. -/
def emailDataOf (subject sender date : String) (bodies : String × String)
    (atts : List String) (include_html : Bool) : EmailData :=
  { subject := subject
    sender := sender
    date := date
    body := pySlice bodies.1 5000
    attachments := atts
    body_html := if include_html then some bodies.2 else none }

/-- Models `sorted(messages, reverse=not sort_ascending)`: a stable sort,
ascending unless `reverse`. -/
def pySorted (reverse : Bool) (l : List Nat) : List Nat :=
  if reverse then List.insertionSort (· ≥ ·) l
  else List.insertionSort (· ≤ ·) l

/-- Result shape of `search_emails`: the emails list with the optional
"No emails found." note, or the error string. -/
inductive SearchResult where
  | ok (emails : List EmailData) (note : Option String)
  | err (e : String)
deriving DecidableEq

/-- The emails list of a non-error result. -/
def SearchResult.emailsOf : SearchResult → Option (List EmailData)
  | SearchResult.ok l _ => some l
  | SearchResult.err _ => none

/-- The fetch-decode-filter loop of `search_emails` (source lines
245-273).  Stops when `limit` summaries are accepted; each scanned
identifier is fetched (and its fetch recorded) before the attachment
post-filter is applied; a raising decode of an accepted message aborts
into the boundary handler (`Except.error`, the trace keeps the events
already performed). -/
def searchLoop (sv : ImapServer) (limit : Nat) (has_attachment include_html : Bool) :
    List Nat → List EmailData → Except String (List EmailData) × List Event
  | [], acc => (Except.ok acc, [])
  | msgId :: rest, acc =>
    if acc.length ≥ limit then (Except.ok acc, [])
    else
      let msg := sv.fetchFn msgId
      let atts := get_attachment_names msg
      if has_attachment ∧ atts = [] then
        let r := searchLoop sv limit has_attachment include_html rest acc
        (r.1, Event.fetch msgId :: r.2)
      else
        match extract_email_bodies msg with
        | none =>
          (Except.error ("Error searching emails: <exception>"), [Event.fetch msgId])
        | some bodies =>
          let e := emailDataOf (msg.subject.getD ("(No Subject)"))
            (msg.fromH.getD ("Unknown Sender")) (msg.dateH.getD ("Unknown Date"))
            bodies atts include_html
          let r := searchLoop sv limit has_attachment include_html rest (acc ++ [e])
          (r.1, Event.fetch msgId :: r.2)

/-- Embedding of `search_emails` (source lines 190-280): connect, select
the folder, build criteria, reject an empty criteria list, search, sort,
then run the fetch loop; an empty result list is reported with the
"No emails found." note. -/
def search_emails (sv : ImapServer) (search_string : String) (folder : String)
    (limit : Nat) (since_date before_date : Option String)
    (sort_ascending include_html : Bool) (sender_filter : Option String)
    (has_attachment : Bool) : SearchResult × List Event :=
  if ¬ sv.connectOk then (SearchResult.err sv.connectErr, [Event.connect])
  else
    match buildCriteriaSearch sender_filter search_string since_date before_date with
    | Except.error e =>
      (SearchResult.err e, [Event.connect, Event.selectFolder folder])
    | Except.ok criteria =>
      if criteria = [] then
        (SearchResult.err ("No search criteria specified."),
         [Event.connect, Event.selectFolder folder])
      else
        let ids := pySorted (!sort_ascending) (sv.searchFn criteria)
        let r := searchLoop sv limit has_attachment include_html ids []
        let res := match r.1 with
          | Except.error e => SearchResult.err e
          | Except.ok l =>
            if l = [] then SearchResult.ok [] (some ("No emails found."))
            else SearchResult.ok l none
        (res, [Event.connect, Event.selectFolder folder, Event.search criteria] ++ r.2)

/-- Specification-side summary of one fetched message, used in the search
pipeline theorem: identical construction to the loop body. -/
def summaryOf (sv : ImapServer) (include_html : Bool) (msgId : Nat) : EmailData :=
  let msg := sv.fetchFn msgId
  emailDataOf (msg.subject.getD ("(No Subject)")) (msg.fromH.getD ("Unknown Sender"))
    (msg.dateH.getD ("Unknown Date")) ((extract_email_bodies msg).getD ("", ""))
    (get_attachment_names msg) include_html

/-- Whether the search loop keeps a message (negation of the
`has_attachment and not attachments` skip). -/
def acceptMsg (sv : ImapServer) (has_attachment : Bool) (msgId : Nat) : Bool :=
  !(has_attachment && (get_attachment_names (sv.fetchFn msgId)).isEmpty)

/-- The identifiers the search loop scans when it still needs `k` accepted
summaries (a proof-side reconstruction of the loop's fetch prefix). -/
def scanIds (accept : Nat → Bool) : List Nat → Nat → List Nat
  | _, 0 => []
  | [], _ + 1 => []
  | i :: rest, k + 1 =>
    i :: scanIds accept rest (if accept i then k else k + 1)

/-- The identifiers fetched in a trace, in order. -/
def fetchedIds (tr : List Event) : List Nat :=
  tr.filterMap fun e =>
    match e with
    | Event.fetch i => some i
    | _ => none

/- ---------------------------------------------------------------------
download_attachment (source lines 282-353).
--------------------------------------------------------------------- -/

/-- The attachment-saving loop of `download_attachment` (source lines
334-348): parts with parsed disposition "attachment" and a truthy
filename, optionally filtered by the substring `attachment_name`, are
written into the download directory.  Writing a missing payload raises
(`Except.error`); files already written stay in the trace. -/
def saveLoop (attachment_name : Option String) (download_dir : String) :
    List MimePart → Except Unit (List String) × List Event
  | [] => (Except.ok [], [])
  | p :: rest =>
    if get_content_disposition p = some ("attachment") then
      match p.filename with
      | none => saveLoop attachment_name download_dir rest
      | some fn =>
        if fn = "" then saveLoop attachment_name download_dir rest
        else
          if truthy attachment_name && !(strContains fn (attachment_name.getD (""))) then
            saveLoop attachment_name download_dir rest
          else
            match p.payload with
            | none => (Except.error (), [])
            | some bs =>
              let r := saveLoop attachment_name download_dir rest
              (r.1.map (fn :: ·), Event.writeFile (pyPathJoin download_dir fn) bs :: r.2)
    else saveLoop attachment_name download_dir rest

/-- Embedding of `download_attachment` (source lines 282-353): connect,
select the folder, build criteria (note: no empty-criteria rejection),
search, then save the attachments of the first match. -/
def download_attachment (sv : ImapServer) (search_string : String) (folder : String)
    (sender_filter since_date attachment_name : Option String)
    (download_dir : String) : List String × List Event :=
  if ¬ sv.connectOk then ([sv.connectErr], [Event.connect])
  else
    match buildCriteriaDownload sender_filter search_string since_date with
    | Except.error e => ([e], [Event.connect, Event.selectFolder folder])
    | Except.ok criteria =>
      match sv.searchFn criteria with
      | [] =>
        (["No matching email found for: \x27" ++ search_string ++ "\x27"],
         [Event.connect, Event.selectFolder folder, Event.search criteria])
      | msgId :: _ =>
        let msg := sv.fetchFn msgId
        let r := saveLoop attachment_name download_dir msg.walk
        let res := match r.1 with
          | Except.error _ => ["Error downloading attachment: <exception>"]
          | Except.ok saved =>
            if saved = [] then ["No matching attachment found."] else saved
        (res,
         [Event.connect, Event.selectFolder folder, Event.search criteria,
          Event.fetch msgId, Event.makeDirs download_dir] ++ r.2)

/- ---------------------------------------------------------------------
send_email (source lines 114-188).
--------------------------------------------------------------------- -/

/-- The attachment loop of `send_email` (source lines 158-172): each path
must be an existing file (`fs path = some content`); the first missing
path aborts the whole build with the AttachmentNotFound message, after
earlier files were already attached to the message being built. -/
def attachLoop (fs : String → Option (List Nat)) :
    List String → List OutPart → Except String (List OutPart)
  | [], acc => Except.ok acc
  | p :: rest, acc =>
    match fs p with
    | some content => attachLoop fs rest (acc ++ [OutPart.file (pyBasename p) content])
    | none => Except.error ("Attachment file not found: " ++ p)

/-- Embedding of `send_email` (source lines 114-188).  The filesystem is
`fs` (`some` = existing regular file with its content).  Returns the
result message and the SMTP event trace; `server.send_message(msg,
to_addrs=recipients)` is recorded as an `smtpSend` event carrying the
built message and the transport recipient list. -/
def send_email (smtp : SmtpSrv) (account : String) (fs : String → Option (List Nat))
    (to_email subject body : String) (html_body cc_email bcc_email : Option String)
    (attachment_paths : Option (List String)) : String × List Event :=
  if ¬ smtp.ok then
    ("Error connecting to SMTP server: " ++ smtp.errMsg, [Event.smtpConnect])
  else
    let headers := [("From", account), ("To", to_email), ("Subject", subject)]
      ++ (if truthy cc_email then [("Cc", cc_email.getD (""))] else [])
    let parts0 := [OutPart.text "plain" body]
      ++ (if truthy html_body then [OutPart.text "html" (html_body.getD (""))] else [])
    match attachLoop fs (attachment_paths.getD []) parts0 with
    | Except.error e => (e, [Event.smtpConnect])
    | Except.ok parts =>
      let m : OutMsg := { headers := headers, parts := parts }
      let recipients := splitStrip to_email
        ++ (if truthy cc_email then splitStrip (cc_email.getD ("")) else [])
        ++ (if truthy bcc_email then splitStrip (bcc_email.getD ("")) else [])
      ("Email sent successfully to " ++ to_email,
       [Event.smtpConnect, Event.smtpSend m recipients, Event.smtpQuit])

/- ---------------------------------------------------------------------
Specification-side segment views of the criteria builder, used to state
the term-order and date-handling theorems.
--------------------------------------------------------------------- -/

/-- The FROM segment of the criteria list. -/
def fromSeg (sender_filter : Option String) : List String :=
  if truthy sender_filter then ["FROM", sender_filter.getD ("")] else []

/-- The TEXT segment of the criteria list. -/
def textSeg (search_string : String) : List String :=
  if search_string != "" then ["TEXT", search_string] else []

/-- The date segment of the criteria list for one tag: absent when the
parameter is not truthy, a tag/value pair when it parses, the given error
otherwise. -/
def dateTerm (tag errMsg : String) (od : Option String) : Except String (List String) :=
  if truthy od then
    match strptimeYmd (od.getD ("")) with
    | some d => Except.ok [tag, strftimeDbY d]
    | none => Except.error errMsg
  else Except.ok []

deriving instance DecidableEq for Except

/- ---------------------------------------------------------------------
Concrete fixtures used by counterexamples and witnesses.
--------------------------------------------------------------------- -/

/-- A non-multipart text/plain message with the given payload bytes. -/
def mkPlainMsg (txt : List Nat) : PyMsg :=
  { subject := some "S"
    fromH := some "F"
    dateH := some "D"
    root := { contentType := "text/plain", dispoHeader := none, filename := none,
              charset := none, payload := some txt }
    subparts := []
    multipart := false }

/-- An IMAP session whose connection succeeds and whose searches find
nothing. -/
def svEmpty : ImapServer :=
  { connectOk := true, connectErr := "", searchFn := fun _ => [],
    fetchFn := fun _ => mkPlainMsg [] }

/-- An IMAP session holding three plain messages with identifiers 1..3. -/
def svThree : ImapServer :=
  { connectOk := true, connectErr := "", searchFn := fun _ => [1, 2, 3],
    fetchFn := fun i => mkPlainMsg [96 + i] }

/-- A non-attachment text/plain part with the given payload bytes. -/
def plainPart (bs : List Nat) : MimePart :=
  { contentType := "text/plain", dispoHeader := none, filename := none,
    charset := none, payload := some bs }

/-- A multipart message holding two text/plain parts: the first one with
an empty payload, the second one decoding to "hi". -/
def msgTwoPlain : PyMsg :=
  { subject := none
    fromH := none
    dateH := none
    root := { contentType := "multipart/mixed", dispoHeader := none, filename := none,
              charset := none, payload := none }
    subparts := [plainPart [], plainPart [104, 105]]
    multipart := true }

/- ---------------------------------------------------------------------
Helper lemmas.
--------------------------------------------------------------------- -/

theorem decodeToks_join (toks : List HToken) :
    (decodeToks toks).map strJoin =
      if toks.all (fun t => (decodeTok t).isSome)
      then some (strJoin (toks.map (fun t => (decodeTok t).getD (""))))
      else none := by
  induction toks with
  | nil => simp [decodeToks, strJoin]
  | cons t rest ih =>
    cases hd : decodeTok t with
    | none => simp [decodeToks, hd]
    | some s =>
      cases hall : rest.all (fun t => (decodeTok t).isSome) with
      | false =>
        rw [hall] at ih
        simp only [if_neg Bool.false_ne_true] at ih
        rcases Option.map_eq_none'.mp ih with hnone
        simp [decodeToks, hd, hnone, List.all_cons, hall]
      | true =>
        rw [hall] at ih
        simp only [if_pos rfl] at ih
        rcases Option.map_eq_some'.mp ih with ⟨l, hl, hjoin⟩
        simp [decodeToks, hd, hl, List.all_cons, hall, strJoin, hjoin]

theorem buildCriteriaSearch_eq (sender : Option String) (ss : String)
    (since before : Option String) :
    buildCriteriaSearch sender ss since before =
      match dateTerm "SINCE" ("Invalid format for since_date. Use YYYY-MM-DD.") since with
      | Except.error e => Except.error e
      | Except.ok st =>
        match dateTerm "BEFORE" ("Invalid format for before_date. Use YYYY-MM-DD.") before with
        | Except.error e => Except.error e
        | Except.ok bt => Except.ok (fromSeg sender ++ textSeg ss ++ st ++ bt) := by
  unfold buildCriteriaSearch dateTerm fromSeg textSeg
  by_cases hsi : truthy since = true
  · simp only [hsi, if_true]
    cases hms : strptimeYmd (since.getD ("")) with
    | none => simp
    | some d =>
      by_cases hbe : truthy before = true
      · simp only [hbe, if_true]
        cases hmb : strptimeYmd (before.getD ("")) with
        | none => simp
        | some d2 => by_cases hss : ss = "" <;> simp [hss, List.append_assoc]
      · simp only [Bool.not_eq_true] at hbe
        by_cases hss : ss = "" <;> simp [hbe, hss, List.append_assoc]
  · simp only [Bool.not_eq_true] at hsi
    simp only [hsi, if_false, Bool.false_eq_true]
    by_cases hbe : truthy before = true
    · simp only [hbe, if_true]
      cases hmb : strptimeYmd (before.getD ("")) with
      | none => simp
      | some d2 => by_cases hss : ss = "" <;> simp [hss, List.append_assoc]
    · simp only [Bool.not_eq_true] at hbe
      by_cases hss : ss = "" <;> simp [hbe, hss, List.append_assoc]

theorem dateTerm_ok_char (tag errMsg : String) (od : Option String) (st : List String)
    (h : dateTerm tag errMsg od = Except.ok st) :
    (truthy od = true →
      ∃ d, strptimeYmd (od.getD ("")) = some d ∧ st = [tag, strftimeDbY d])
    ∧ (truthy od = false → st = []) := by
  unfold dateTerm at h
  by_cases ht : truthy od = true
  · rw [if_pos ht] at h
    cases hm : strptimeYmd (od.getD ("")) with
    | none =>
      rw [hm] at h
      exact Except.noConfusion h
    | some d =>
      rw [hm] at h
      have hst : st = [tag, strftimeDbY d] := by
        injection h with h2
        exact h2.symm
      constructor
      · exact fun _ => ⟨d, hm ▸ rfl, hst⟩
      · intro hf
        rw [hf] at ht
        cases ht
  · simp only [Bool.not_eq_true] at ht
    rw [ht] at h
    simp only [Bool.false_eq_true, if_false] at h
    have hst : st = [] := by
      injection h with h2
      exact h2.symm
    constructor
    · intro hcontra
      rw [hcontra] at ht
      cases ht
    · exact fun _ => hst

theorem dateTerm_err_char (tag errMsg : String) (od : Option String) (s : String)
    (hod : od = some s) (hs : s ≠ "") (hparse : strptimeYmd s = none) :
    dateTerm tag errMsg od = Except.error errMsg := by
  subst hod
  unfold dateTerm
  have ht : truthy (some s) = true := by
    simp [truthy, hs]
  rw [ht]
  simp only [if_true, Option.getD_some, hparse]

theorem dateTerm_not_truthy (tag errMsg : String) (od : Option String)
    (h : truthy od = false) : dateTerm tag errMsg od = Except.ok [] := by
  unfold dateTerm
  rw [h]
  simp

theorem dateTerm_ok_exists (tag errMsg : String) (od : Option String)
    (h : truthy od = true → (strptimeYmd (od.getD (""))).isSome) :
    ∃ st, dateTerm tag errMsg od = Except.ok st := by
  by_cases ht : truthy od = true
  · rcases Option.isSome_iff_exists.mp (h ht) with ⟨d, hd⟩
    refine ⟨[tag, strftimeDbY d], ?_⟩
    unfold dateTerm
    rw [ht]
    simp [hd]
  · simp only [Bool.not_eq_true] at ht
    exact ⟨[], dateTerm_not_truthy tag errMsg od ht⟩

/- ---------------------------------------------------------------------
Claim theorems.
--------------------------------------------------------------------- -/

/-- C2 counterexample: a single encoded-word token whose bytes are not
valid UTF-8 makes `decode_mime_words` raise (`none`), so decoding is not
total and a failing token is not ignored. -/
theorem decode_mime_words_raises :
    decode_mime_words [(HPart.bytes [255], none)] = none := by decide

/-- C2 (amended): each encoded-word token is decoded with its declared
charset (utf-8 when absent) and the tokens are concatenated in original
order whenever every token decodes; but a decode error in one token makes
the whole call raise (`none`) instead of being ignored. -/
theorem decode_mime_words_strictness (toks : List HToken) :
    decode_mime_words toks =
      if toks.all (fun t => (decodeTok t).isSome)
      then some (strJoin (toks.map (fun t => (decodeTok t).getD (""))))
      else none := by
  unfold decode_mime_words
  exact decodeToks_join toks

/-- C5: when the criteria build succeeds, the emitted conjunctive terms
appear in the fixed order FROM, TEXT, SINCE, BEFORE, and each segment is
present exactly when the corresponding filter field is supplied (truthy,
i.e. present and non-empty, matching the source's `if field:` guards). -/
theorem buildCriteria_term_order (sender : Option String) (ss : String)
    (since before : Option String) (c : List String)
    (h : buildCriteriaSearch sender ss since before = Except.ok c) :
    ∃ sTerm bTerm,
      c = fromSeg sender ++ textSeg ss ++ sTerm ++ bTerm
      ∧ (truthy sender = true → fromSeg sender = ["FROM", sender.getD ("")])
      ∧ (truthy sender = false → fromSeg sender = [])
      ∧ (ss ≠ "" → textSeg ss = ["TEXT", ss])
      ∧ (ss = "" → textSeg ss = [])
      ∧ (truthy since = true →
          ∃ d, strptimeYmd (since.getD ("")) = some d ∧ sTerm = ["SINCE", strftimeDbY d])
      ∧ (truthy since = false → sTerm = [])
      ∧ (truthy before = true →
          ∃ d, strptimeYmd (before.getD ("")) = some d ∧ bTerm = ["BEFORE", strftimeDbY d])
      ∧ (truthy before = false → bTerm = []) := by
  rw [buildCriteriaSearch_eq] at h
  cases hs : dateTerm "SINCE" ("Invalid format for since_date. Use YYYY-MM-DD.") since with
  | error e => rw [hs] at h; exact Except.noConfusion h
  | ok st =>
    cases hb : dateTerm "BEFORE" ("Invalid format for before_date. Use YYYY-MM-DD.") before with
    | error e => rw [hs, hb] at h; exact Except.noConfusion h
    | ok bt =>
      rw [hs, hb] at h
      have hc : c = fromSeg sender ++ textSeg ss ++ st ++ bt := by
        injection h with h2
        exact h2.symm
      obtain ⟨hsi1, hsi0⟩ := dateTerm_ok_char _ _ _ _ hs
      obtain ⟨hbe1, hbe0⟩ := dateTerm_ok_char _ _ _ _ hb
      refine ⟨st, bt, hc, ?_, ?_, ?_, ?_, hsi1, hsi0, hbe1, hbe0⟩
      · intro ht; simp [fromSeg, ht]
      · intro ht; simp [fromSeg, ht]
      · intro ht; simp [textSeg, ht]
      · intro ht; simp [textSeg, ht]

/-- C5 witness: instantiation at a fully supplied filter. -/
theorem buildCriteria_term_order_witness :
    ∃ sTerm bTerm,
      (["FROM", "bob", "TEXT", "x", "SINCE", "07-Mar-2024", "BEFORE", "01-Apr-2024"] : List String)
        = fromSeg (some "bob") ++ textSeg "x" ++ sTerm ++ bTerm
      ∧ (truthy (some "2024-03-07") = true →
          ∃ d, strptimeYmd ((some "2024-03-07").getD ("")) = some d
            ∧ sTerm = ["SINCE", strftimeDbY d]) := by
  obtain ⟨sT, bT, hc, _, _, _, _, hsi, _, _, _⟩ :=
    buildCriteria_term_order (some "bob") "x" (some "2024-03-07") (some "2024-04-01")
      ["FROM", "bob", "TEXT", "x", "SINCE", "07-Mar-2024", "BEFORE", "01-Apr-2024"]
      (by decide)
  exact ⟨sT, bT, hc, hsi⟩

/-- C6 counterexample: the empty string does not parse as a date, yet the
builder neither emits a term nor returns the InvalidDateFormat error for
it — a supplied empty `since_date` is silently treated as absent by the
`if since_date:` truthiness guard. -/
theorem buildCriteria_empty_date_accepted :
    strptimeYmd "" = none
    ∧ buildCriteriaSearch none "x" (some "") none = Except.ok ["TEXT", "x"] := by
  decide

/-- C6 (amended): for every supplied non-empty date string, a successful
parse yields exactly one corresponding query term carrying the
day-month-year reformatting (whenever the whole build succeeds), and a
failed parse yields the InvalidDateFormat error for that parameter (the
since date is checked first); a supplied empty date string is instead
treated as absent: no term and no error. -/
theorem buildCriteria_date_handling (sender : Option String) (ss : String)
    (since before : Option String) :
    (∀ s, since = some s → s ≠ "" → strptimeYmd s = none →
      buildCriteriaSearch sender ss since before
        = Except.error ("Invalid format for since_date. Use YYYY-MM-DD."))
    ∧ (∀ s, before = some s → s ≠ "" → strptimeYmd s = none →
        (truthy since = true → (strptimeYmd (since.getD (""))).isSome) →
        buildCriteriaSearch sender ss since before
          = Except.error ("Invalid format for before_date. Use YYYY-MM-DD."))
    ∧ (∀ s d c, since = some s → strptimeYmd s = some d →
        buildCriteriaSearch sender ss since before = Except.ok c →
        ∃ bTerm, c = fromSeg sender ++ textSeg ss ++ ["SINCE", strftimeDbY d] ++ bTerm)
    ∧ (∀ s d c, before = some s → strptimeYmd s = some d →
        buildCriteriaSearch sender ss since before = Except.ok c →
        ∃ sTerm,
          ((truthy since = true → ∃ d2, sTerm = ["SINCE", strftimeDbY d2])
            ∧ (truthy since = false → sTerm = []))
          ∧ c = fromSeg sender ++ textSeg ss ++ sTerm ++ ["BEFORE", strftimeDbY d]) := by
  refine ⟨?_, ?_, ?_, ?_⟩
  · intro s hod hs hparse
    rw [buildCriteriaSearch_eq, dateTerm_err_char _ _ since s hod hs hparse]
  · intro s hod hs hparse hsome
    rcases dateTerm_ok_exists "SINCE"
        ("Invalid format for since_date. Use YYYY-MM-DD.") since hsome with ⟨st, hst⟩
    rw [buildCriteriaSearch_eq, hst, dateTerm_err_char _ _ before s hod hs hparse]
  · intro s d c hod hparse h
    subst hod
    have hse : s ≠ "" := by
      intro he
      rw [he] at hparse
      have h0 : strptimeYmd "" = none := by decide
      rw [h0] at hparse
      exact Option.noConfusion hparse
    have htr : truthy (some s) = true := by simp [truthy, hse]
    rw [buildCriteriaSearch_eq] at h
    cases hs : dateTerm "SINCE" ("Invalid format for since_date. Use YYYY-MM-DD.") (some s) with
    | error e => rw [hs] at h; exact Except.noConfusion h
    | ok st =>
      cases hb : dateTerm "BEFORE" ("Invalid format for before_date. Use YYYY-MM-DD.") before with
      | error e => rw [hs, hb] at h; exact Except.noConfusion h
      | ok bt =>
        rw [hs, hb] at h
        have hc : c = fromSeg sender ++ textSeg ss ++ st ++ bt := by
          injection h with h2
          exact h2.symm
        obtain ⟨d2, hd2, hst2⟩ := (dateTerm_ok_char _ _ _ _ hs).1 htr
        rw [Option.getD_some, hparse] at hd2
        have hdd : d2 = d := Option.some.inj hd2.symm
        refine ⟨bt, ?_⟩
        rw [hc, hst2, hdd]
  · intro s d c hod hparse h
    subst hod
    have hse : s ≠ "" := by
      intro he
      rw [he] at hparse
      have h0 : strptimeYmd "" = none := by decide
      rw [h0] at hparse
      exact Option.noConfusion hparse
    have htr : truthy (some s) = true := by simp [truthy, hse]
    rw [buildCriteriaSearch_eq] at h
    cases hs : dateTerm "SINCE" ("Invalid format for since_date. Use YYYY-MM-DD.") since with
    | error e => rw [hs] at h; exact Except.noConfusion h
    | ok st =>
      cases hb : dateTerm "BEFORE" ("Invalid format for before_date. Use YYYY-MM-DD.") (some s) with
      | error e => rw [hs, hb] at h; exact Except.noConfusion h
      | ok bt =>
        rw [hs, hb] at h
        have hc : c = fromSeg sender ++ textSeg ss ++ st ++ bt := by
          injection h with h2
          exact h2.symm
        obtain ⟨d2, hd2, hbt2⟩ := (dateTerm_ok_char _ _ _ _ hb).1 htr
        rw [Option.getD_some, hparse] at hd2
        have hdd : d2 = d := Option.some.inj hd2.symm
        obtain ⟨hsi1, hsi0⟩ := dateTerm_ok_char _ _ _ _ hs
        refine ⟨st, ⟨?_, hsi0⟩, ?_⟩
        · intro ht
          obtain ⟨d3, _, hst3⟩ := hsi1 ht
          exact ⟨d3, hst3⟩
        · rw [hc, hbt2, hdd]

/-- C6 witness: a malformed supplied date (February 30th) is rejected with
the InvalidDateFormat error. -/
theorem buildCriteria_date_handling_witness :
    buildCriteriaSearch none "" (some "2024-02-30") none
      = Except.error ("Invalid format for since_date. Use YYYY-MM-DD.") :=
  (buildCriteria_date_handling none "" (some "2024-02-30") none).1 "2024-02-30" rfl
    (by decide) (by decide)

/-- C1 counterexample: with an empty filter, `search_emails` does return
the NoCriteriaSpecified error, but only after the IMAP connection and the
folder selection have been performed — the trace of the run is exactly
[connect, selectFolder], contradicting "no IMAP connection ... is made
before the error is returned". -/
theorem search_emails_contacts_transport :
    (search_emails svEmpty "" "INBOX" 10 none none false false none false).1
        = SearchResult.err ("No search criteria specified.")
    ∧ Event.connect ∈ (search_emails svEmpty "" "INBOX" 10 none none false false none false).2
    ∧ Event.selectFolder "INBOX"
        ∈ (search_emails svEmpty "" "INBOX" 10 none none false false none false).2 := by
  decide

/-- C1 (amended): for every filter with no text/sender/date term, a run
whose connection succeeds returns the NoCriteriaSpecified error before
any search or fetch is issued — but after the IMAP connection and the
folder selection have already been made (the trace is exactly
[connect, selectFolder]). -/
theorem search_emails_no_criteria_error (sv : ImapServer) (folder : String)
    (limit : Nat) (sortA incH hasA : Bool) (ss : String)
    (sender since before : Option String)
    (hok : sv.connectOk = true) (hss : ss = "")
    (hsd : truthy sender = false) (hsi : truthy since = false)
    (hbe : truthy before = false) :
    search_emails sv ss folder limit since before sortA incH sender hasA
      = (SearchResult.err ("No search criteria specified."),
         [Event.connect, Event.selectFolder folder]) := by
  subst hss
  have hbuild : buildCriteriaSearch sender "" since before = Except.ok [] := by
    rw [buildCriteriaSearch_eq, dateTerm_not_truthy _ _ _ hsi, dateTerm_not_truthy _ _ _ hbe]
    simp [fromSeg, textSeg, hsd]
  unfold search_emails
  rw [hok, hbuild]
  simp

/-- C1 witness: instantiation of the amended theorem at a concrete
session. -/
theorem search_emails_no_criteria_error_witness :
    search_emails svEmpty "" "INBOX" 10 none none false false none false
      = (SearchResult.err ("No search criteria specified."),
         [Event.connect, Event.selectFolder "INBOX"]) :=
  search_emails_no_criteria_error svEmpty "INBOX" 10 false false false "" none none none
    rfl rfl rfl rfl rfl

theorem bodiesWalk_char (ps : List MimePart) : ∀ (t h : String),
    bodiesWalk ps t h
      = ((if t = "" then firstNonEmpty (decodedCandidates "text/plain" ps) else t),
         (if h = "" then firstNonEmpty (decodedCandidates "text/html" ps) else h)) := by
  induction ps with
  | nil =>
    intro t h
    by_cases ht : t = "" <;> by_cases hh : h = "" <;>
      simp [bodiesWalk, decodedCandidates, firstNonEmpty, ht, hh]
  | cons p rest ih =>
    intro t h
    by_cases hel : partEligible p = true
    · by_cases hpl : p.contentType = "text/plain"
      · by_cases ht : t = ""
        · cases hpay : p.payload with
          | none =>
            simp [bodiesWalk, hel, hpl, ht, hpay, decodedCandidates, ih]
          | some bs =>
            cases hdec : lookupDecodeIgnore (encOrUtf8 p.charset) bs with
            | none =>
              simp [bodiesWalk, hel, hpl, ht, hpay, hdec, decodedCandidates, ih]
            | some s =>
              by_cases hs : s = "" <;>
                simp [bodiesWalk, hel, hpl, ht, hpay, hdec, decodedCandidates, ih,
                  firstNonEmpty, List.find?, hs]
        · simp [bodiesWalk, hel, hpl, ht, decodedCandidates, ih]
      · by_cases hph : p.contentType = "text/html"
        · by_cases hh : h = ""
          · cases hpay : p.payload with
            | none =>
              simp [bodiesWalk, hel, hpl, hph, hh, hpay, decodedCandidates, ih]
            | some bs =>
              cases hdec : lookupDecodeIgnore (encOrUtf8 p.charset) bs with
              | none =>
                simp [bodiesWalk, hel, hpl, hph, hh, hpay, hdec, decodedCandidates, ih]
              | some s =>
                by_cases hs : s = "" <;>
                  simp [bodiesWalk, hel, hpl, hph, hh, hpay, hdec, decodedCandidates, ih,
                    firstNonEmpty, List.find?, hs]
          · simp [bodiesWalk, hel, hpl, hph, hh, decodedCandidates, ih]
        · simp [bodiesWalk, hel, hpl, hph, decodedCandidates, ih]
    · simp [bodiesWalk, hel, decodedCandidates, ih]

/-- C7 counterexample: the first non-attachment text/plain part of
`msgTwoPlain` decodes to the empty string, and the returned textBody is
taken from the second text/plain part instead (strict first-part-wins
would have produced the sentinel), so a later part of the same type is
not always ignored. -/
theorem extract_bodies_not_first_match :
    decodedCandidates "text/plain" msgTwoPlain.walk = ["", "hi"]
    ∧ extract_email_bodies msgTwoPlain = some ("hi", "(No HTML content found)") := by
  decide

/-- C7 (amended): for every multipart message, textBody is taken from the
first non-attachment text/plain part whose payload decodes to a non-empty
string (parts with empty or undecodable payloads are passed over), and
htmlBody likewise from text/html parts; once such a part is found, later
parts of the same type are ignored, never concatenated. -/
theorem extract_bodies_first_nonempty (m : PyMsg) (hmp : m.multipart = true) :
    extract_email_bodies m
      = some (orDefault (pyStrip (firstNonEmpty (decodedCandidates "text/plain" m.walk)))
            ("(No plain text content found)"),
          orDefault (pyStrip (firstNonEmpty (decodedCandidates "text/html" m.walk)))
            ("(No HTML content found)")) := by
  unfold extract_email_bodies
  rw [hmp]
  simp [bodiesWalk_char, finalizeBodies]

/-- C7 witness: instantiation of the amended theorem at the two-part
fixture. -/
theorem extract_bodies_first_nonempty_witness :
    extract_email_bodies msgTwoPlain
      = some (orDefault (pyStrip (firstNonEmpty (decodedCandidates "text/plain" msgTwoPlain.walk)))
            ("(No plain text content found)"),
          orDefault (pyStrip (firstNonEmpty (decodedCandidates "text/html" msgTwoPlain.walk)))
            ("(No HTML content found)")) :=
  extract_bodies_first_nonempty msgTwoPlain rfl

/-- C8: whenever the extracted plain text is longer than the display limit
(5000 characters in this path), the summary body is that text truncated to
exactly 5000 characters, while the html body is never truncated and is
present exactly when `include_html` is requested. -/
theorem emailData_truncation (subject sender date : String) (bodies : String × String)
    (atts : List String) (incH : Bool) (hlen : 5000 < bodies.1.length) :
    (emailDataOf subject sender date bodies atts incH).body = pySlice bodies.1 5000
    ∧ ((emailDataOf subject sender date bodies atts incH).body).length = 5000
    ∧ (emailDataOf subject sender date bodies atts incH).body_html
        = (if incH then some bodies.2 else none) := by
  refine ⟨rfl, ?_, rfl⟩
  show (pySlice bodies.1 5000).length = 5000
  unfold pySlice
  show (bodies.1.data.take 5000).length = 5000
  rw [List.length_take]
  exact Nat.min_eq_left (Nat.le_of_lt hlen)

/-- C8 witness: a 5001-character body is cut to exactly 5000 characters,
with the html body kept whole. -/
theorem emailData_truncation_witness :
    5000 < (String.mk (List.replicate 5001 'a')).length
    ∧ (emailDataOf "S" "F" "D" (String.mk (List.replicate 5001 'a'), "H") [] true).body
        = pySlice (String.mk (List.replicate 5001 'a')) 5000
    ∧ ((emailDataOf "S" "F" "D" (String.mk (List.replicate 5001 'a'), "H") [] true).body).length
        = 5000
    ∧ (emailDataOf "S" "F" "D" (String.mk (List.replicate 5001 'a'), "H") [] true).body_html
        = (if true then some "H" else none) := by
  have hlen : 5000 < (String.mk (List.replicate 5001 'a')).length := by
    show 5000 < (List.replicate 5001 'a').length
    rw [List.length_replicate]
    omega
  exact ⟨hlen,
    emailData_truncation "S" "F" "D" (String.mk (List.replicate 5001 'a'), "H") [] true hlen⟩

theorem attachLoop_err (fs : String → Option (List Nat)) (paths : List String) :
    ∀ (acc : List OutPart) (p : String),
      paths.find? (fun q => (fs q).isNone) = some p →
      attachLoop fs paths acc = Except.error ("Attachment file not found: " ++ p) := by
  induction paths with
  | nil =>
    intro acc p hfind
    simp [List.find?] at hfind
  | cons q rest ih =>
    intro acc p hfind
    cases hq : fs q with
    | none =>
      simp [List.find?, hq] at hfind
      subst hfind
      simp [attachLoop, hq]
    | some content =>
      have hrest : rest.find? (fun r => (fs r).isNone) = some p := by
        simpa [List.find?, hq] using hfind
      simp only [attachLoop, hq]
      exact ih _ p hrest

theorem attachLoop_all (fs : String → Option (List Nat)) (paths : List String) :
    ∀ (acc : List OutPart),
      (∀ q ∈ paths, (fs q).isSome) →
      attachLoop fs paths acc
        = Except.ok (acc ++ paths.map (fun q => OutPart.file (pyBasename q) ((fs q).getD []))) := by
  induction paths with
  | nil =>
    intro acc hall
    simp [attachLoop]
  | cons q rest ih =>
    intro acc hall
    rcases Option.isSome_iff_exists.mp (hall q (by simp)) with ⟨content, hc⟩
    simp only [attachLoop, hc]
    rw [ih _ (fun r hr => hall r (by simp [hr]))]
    simp [hc, List.append_assoc]

/-- C3: whenever the attachment path list contains a path that is not an
existing regular file, `send_email` returns the AttachmentNotFound message
for the first such path and the trace stops at the SMTP connection: no
send is ever issued, even though earlier, existing paths were already
attached to the message being built. -/
theorem send_email_missing_attachment (smtp : SmtpSrv) (account : String)
    (fs : String → Option (List Nat)) (toAddr subj body : String)
    (html cc bcc : Option String) (paths : List String) (p : String)
    (hok : smtp.ok = true)
    (hfind : paths.find? (fun q => (fs q).isNone) = some p) :
    send_email smtp account fs toAddr subj body html cc bcc (some paths)
      = ("Attachment file not found: " ++ p, [Event.smtpConnect])
    ∧ ∀ ev ∈ (send_email smtp account fs toAddr subj body html cc bcc (some paths)).2,
        ∀ m r, ev ≠ Event.smtpSend m r := by
  have heq : send_email smtp account fs toAddr subj body html cc bcc (some paths)
      = ("Attachment file not found: " ++ p, [Event.smtpConnect]) := by
    unfold send_email
    rw [hok]
    simp only [not_true, if_false, Option.getD_some,
      attachLoop_err fs paths _ p hfind]
  refine ⟨heq, ?_⟩
  rw [heq]
  intro ev hev m r
  simp only [List.mem_singleton] at hev
  subst hev
  intro hcon
  exact Event.noConfusion hcon

/-- C3 witness: one missing path aborts the send at the connection. -/
theorem send_email_missing_attachment_witness :
    send_email { ok := true, errMsg := "" } "me@x" (fun _ => none) "a@b" "s" "t"
        none none none (some ["/tmp/f"])
      = ("Attachment file not found: /tmp/f", [Event.smtpConnect])
    ∧ ∀ ev ∈ (send_email { ok := true, errMsg := "" } "me@x" (fun _ => none) "a@b" "s" "t"
        none none none (some ["/tmp/f"])).2, ∀ m r, ev ≠ Event.smtpSend m r :=
  send_email_missing_attachment { ok := true, errMsg := "" } "me@x" (fun _ => none)
    "a@b" "s" "t" none none none ["/tmp/f"] "/tmp/f" rfl (by decide)

/-- C9: on every successful send, the transport-level recipient list is
the concatenation of the comma-split, whitespace-trimmed to, cc and bcc
address strings, while the built message carries exactly the From, To,
Subject and (when cc is given) Cc headers; the header list does not
mention bcc at all and in particular contains no Bcc header. -/
theorem send_email_success_shape (smtp : SmtpSrv) (account : String)
    (fs : String → Option (List Nat)) (toAddr subj body : String)
    (html cc bcc : Option String) (paths : List String)
    (hok : smtp.ok = true) (hall : ∀ q ∈ paths, (fs q).isSome) :
    send_email smtp account fs toAddr subj body html cc bcc (some paths)
      = ("Email sent successfully to " ++ toAddr,
         [Event.smtpConnect,
          Event.smtpSend
            { headers := [("From", account), ("To", toAddr), ("Subject", subj)]
                ++ (if truthy cc then [("Cc", cc.getD (""))] else []),
              parts := [OutPart.text "plain" body]
                ++ (if truthy html then [OutPart.text "html" (html.getD (""))] else [])
                ++ paths.map (fun q => OutPart.file (pyBasename q) ((fs q).getD [])) }
            (splitStrip toAddr
              ++ (if truthy cc then splitStrip (cc.getD ("")) else [])
              ++ (if truthy bcc then splitStrip (bcc.getD ("")) else [])),
          Event.smtpQuit])
    ∧ ∀ hname hval,
        (hname, hval) ∈ ([("From", account), ("To", toAddr), ("Subject", subj)]
            ++ (if truthy cc then [("Cc", cc.getD (""))] else []) : List (String × String))
        → hname ≠ "Bcc" := by
  constructor
  · unfold send_email
    rw [hok]
    simp only [not_true, if_false, Option.getD_some]
    rw [attachLoop_all fs paths _ hall]
  · intro hname hval hmem
    rcases List.mem_append.mp hmem with h | h
    · simp only [List.mem_cons, List.mem_singleton, List.not_mem_nil, or_false] at h
      rcases h with h | h | h <;>
        (rw [Prod.mk.injEq] at h; rcases h with ⟨h1, _⟩; rw [h1]; decide)
    · by_cases hcc : truthy cc = true
      · rw [if_pos hcc] at h
        simp only [List.mem_singleton] at h
        rw [Prod.mk.injEq] at h
        rcases h with ⟨h1, _⟩
        rw [h1]
        decide
      · rw [if_neg hcc] at h
        exact absurd h (List.not_mem_nil _)

/-- C9 witness: a send with to, cc, bcc and one existing attachment. -/
theorem send_email_success_shape_witness :
    send_email { ok := true, errMsg := "" } "me@x"
        (fun p => if p = "/tmp/f" then some [1] else none)
        "a@b, c@d" "s" "t" none (some "e@f") (some "g@h") (some ["/tmp/f"])
      = ("Email sent successfully to " ++ "a@b, c@d",
         [Event.smtpConnect,
          Event.smtpSend
            { headers := [("From", "me@x"), ("To", "a@b, c@d"), ("Subject", "s")]
                ++ (if truthy (some "e@f") then [("Cc", (some "e@f").getD (""))] else []),
              parts := [OutPart.text "plain" "t"]
                ++ (if truthy (none : Option String)
                    then [OutPart.text "html" ((none : Option String).getD (""))] else [])
                ++ (["/tmp/f"] : List String).map (fun q => OutPart.file (pyBasename q)
                    (((fun p => if p = "/tmp/f" then some [1] else none) q).getD [])) }
            (splitStrip "a@b, c@d"
              ++ (if truthy (some "e@f") then splitStrip ((some "e@f").getD ("")) else [])
              ++ (if truthy (some "g@h") then splitStrip ((some "g@h").getD ("")) else [])),
          Event.smtpQuit]) :=
  (send_email_success_shape { ok := true, errMsg := "" } "me@x"
    (fun p => if p = "/tmp/f" then some [1] else none) "a@b, c@d" "s" "t"
    none (some "e@f") (some "g@h") ["/tmp/f"] rfl (by decide)).1

/-- C10: with no search text, sender or since-date, `download_attachment`
does not reject zero-term criteria: it proceeds to issue the IMAP search
with the empty criteria list, and when that search finds nothing it
reports the no-match message, not a NoCriteriaSpecified error. -/
theorem download_attachment_empty_criteria (sv : ImapServer) (folder : String)
    (attachment_name : Option String) (download_dir : String)
    (hok : sv.connectOk = true) :
    (∃ tl, (download_attachment sv "" folder none none attachment_name download_dir).2
        = [Event.connect, Event.selectFolder folder, Event.search []] ++ tl)
    ∧ (sv.searchFn [] = [] →
        (download_attachment sv "" folder none none attachment_name download_dir).1
          = ["No matching email found for: \x27\x27"]) := by
  have hbuild : buildCriteriaDownload none "" none = Except.ok [] := by decide
  cases hsearch : sv.searchFn [] with
  | nil =>
    have heq : download_attachment sv "" folder none none attachment_name download_dir
        = (["No matching email found for: \x27" ++ "" ++ "\x27"],
           [Event.connect, Event.selectFolder folder, Event.search []]) := by
      simp [download_attachment, hok, hbuild, hsearch]
    have hstr : ("No matching email found for: \x27" ++ "" ++ "\x27" : String)
        = "No matching email found for: \x27\x27" := by decide
    rw [heq]
    refine ⟨⟨[], by simp⟩, fun _ => ?_⟩
    show (["No matching email found for: \x27" ++ "" ++ "\x27"] : List String) = _
    rw [hstr]
  | cons i rest =>
    have heq : (download_attachment sv "" folder none none attachment_name download_dir).2
        = [Event.connect, Event.selectFolder folder, Event.search [], Event.fetch i,
           Event.makeDirs download_dir]
          ++ (saveLoop attachment_name download_dir (sv.fetchFn i).walk).2 := by
      simp [download_attachment, hok, hbuild, hsearch]
    refine ⟨⟨[Event.fetch i, Event.makeDirs download_dir]
        ++ (saveLoop attachment_name download_dir (sv.fetchFn i).walk).2, ?_⟩, ?_⟩
    · rw [heq]
      simp
    · intro hempty
      exact List.noConfusion hempty

/-- C10 witness: instantiation at a concrete session finding nothing. -/
theorem download_attachment_empty_criteria_witness :
    (∃ tl, (download_attachment svEmpty "" "INBOX" none none none "./downloads").2
        = [Event.connect, Event.selectFolder "INBOX", Event.search []] ++ tl)
    ∧ (svEmpty.searchFn [] = [] →
        (download_attachment svEmpty "" "INBOX" none none none "./downloads").1
          = ["No matching email found for: \x27\x27"]) :=
  download_attachment_empty_criteria svEmpty "INBOX" none "./downloads" rfl

theorem scanIds_take (a : Nat → Bool) (ids : List Nat) : ∀ (k : Nat),
    scanIds a ids k = ids.take (scanIds a ids k).length := by
  induction ids with
  | nil => intro k; cases k <;> simp [scanIds]
  | cons i rest ih =>
    intro k
    cases k with
    | zero => simp [scanIds]
    | succ n =>
      simp only [scanIds, List.length_cons, List.take_succ_cons, List.cons.injEq, true_and]
      exact ih (if a i then n else n + 1)

theorem scanIds_filter (a : Nat → Bool) (ids : List Nat) : ∀ (k : Nat),
    (scanIds a ids k).filter a = (ids.filter a).take k := by
  induction ids with
  | nil => intro k; cases k <;> simp [scanIds]
  | cons i rest ih =>
    intro k
    cases k with
    | zero => simp [scanIds]
    | succ n =>
      cases ha : a i with
      | true => simp [scanIds, List.filter_cons, ha, ih]
      | false => simp [scanIds, List.filter_cons, ha, ih]

theorem fetchedIds_append (t1 t2 : List Event) :
    fetchedIds (t1 ++ t2) = fetchedIds t1 ++ fetchedIds t2 := by
  simp [fetchedIds, List.filterMap_append]

theorem fetchedIds_map_fetch (l : List Nat) : fetchedIds (l.map Event.fetch) = l := by
  induction l with
  | nil => simp [fetchedIds]
  | cons i rest ih =>
    simp only [fetchedIds, List.map_cons, List.filterMap_cons] at ih ⊢
    rw [ih]

theorem searchLoop_clean (sv : ImapServer) (limit : Nat) (hasA incH : Bool)
    (ids : List Nat) : ∀ (acc : List EmailData),
    acc.length ≤ limit →
    (∀ i ∈ ids, (extract_email_bodies (sv.fetchFn i)).isSome) →
    searchLoop sv limit hasA incH ids acc
      = (Except.ok (acc ++ (((ids.filter (acceptMsg sv hasA)).take (limit - acc.length)).map
            (summaryOf sv incH))),
         (scanIds (acceptMsg sv hasA) ids (limit - acc.length)).map Event.fetch) := by
  induction ids with
  | nil =>
    intro acc hacc hclean
    have h0 : scanIds (acceptMsg sv hasA) [] (limit - acc.length) = [] := by
      cases limit - acc.length <;> simp [scanIds]
    simp [searchLoop, h0]
  | cons i rest ih =>
    intro acc hacc hclean
    by_cases hlim : acc.length ≥ limit
    · have hz : limit - acc.length = 0 := Nat.sub_eq_zero_of_le hlim
      simp [searchLoop, hlim, hz, scanIds]
    · have hlt : acc.length < limit := Nat.lt_of_not_le hlim
      have hk : limit - acc.length = (limit - (acc.length + 1)) + 1 := by omega
      have hcleanrest : ∀ j ∈ rest, (extract_email_bodies (sv.fetchFn j)).isSome :=
        fun j hj => hclean j (List.mem_cons_of_mem i hj)
      cases haccept : acceptMsg sv hasA i with
      | false =>
        have hx : (hasA && (get_attachment_names (sv.fetchFn i)).isEmpty) = true := by
          cases hcase : (hasA && (get_attachment_names (sv.fetchFn i)).isEmpty) with
          | true => rfl
          | false =>
            exfalso
            unfold acceptMsg at haccept
            rw [hcase] at haccept
            simp at haccept
        have hskip : hasA = true ∧ get_attachment_names (sv.fetchFn i) = [] := by
          rw [Bool.and_eq_true] at hx
          exact ⟨hx.1, List.isEmpty_iff.mp hx.2⟩
        simp only [searchLoop]
        rw [if_neg hlim, if_pos hskip, ih acc hacc hcleanrest]
        rw [hk, List.filter_cons]
        simp [scanIds, haccept]
      | true =>
        have hand : (hasA && (get_attachment_names (sv.fetchFn i)).isEmpty) = false := by
          cases hcase : (hasA && (get_attachment_names (sv.fetchFn i)).isEmpty) with
          | false => rfl
          | true =>
            exfalso
            unfold acceptMsg at haccept
            rw [hcase] at haccept
            simp at haccept
        have hnoskip : ¬ (hasA = true ∧ get_attachment_names (sv.fetchFn i) = []) := by
          rintro ⟨h1, h2⟩
          rw [h1, h2] at hand
          simp at hand
        rcases Option.isSome_iff_exists.mp (hclean i (List.mem_cons_self i rest)) with
          ⟨bodies, hb⟩
        have hsum : emailDataOf ((sv.fetchFn i).subject.getD ("(No Subject)"))
            ((sv.fetchFn i).fromH.getD ("Unknown Sender"))
            ((sv.fetchFn i).dateH.getD ("Unknown Date")) bodies
            (get_attachment_names (sv.fetchFn i)) incH = summaryOf sv incH i := by
          simp only [summaryOf, hb, Option.getD_some]
        have hlen2 : (acc ++ [summaryOf sv incH i]).length ≤ limit := by
          rw [List.length_append]
          simpa using hlt
        simp only [searchLoop]
        rw [if_neg hlim, if_neg hnoskip, hb]
        simp only [hsum]
        rw [ih (acc ++ [summaryOf sv incH i]) hlen2 hcleanrest]
        rw [hk, List.filter_cons]
        simp only [haccept, if_true, List.length_append, List.length_cons,
          List.length_nil, List.take_succ_cons, List.map_cons, scanIds]
        simp [List.append_assoc]

/-- C4: under a successful connection, a non-empty built criteria list and
cleanly decoding messages, `search_emails` emits exactly the summaries of
the first `limit` accepted identifiers of the search result sorted
descending by default and ascending when `sort_ascending`; the fetch trace
is a prefix of the sorted identifier list whose accepted identifiers are
exactly those summarized — so the attachment post-filter is applied only
after fetching, and the loop stops once `limit` summaries are accepted,
not once `limit` identifiers are scanned. -/
theorem search_emails_pipeline (sv : ImapServer) (ss folder : String) (limit : Nat)
    (since before : Option String) (sortA incH : Bool) (sender : Option String)
    (hasA : Bool) (c : List String)
    (hok : sv.connectOk = true)
    (hbuild : buildCriteriaSearch sender ss since before = Except.ok c)
    (hc : c ≠ [])
    (hclean : ∀ i ∈ pySorted (!sortA) (sv.searchFn c),
      (extract_email_bodies (sv.fetchFn i)).isSome) :
    (search_emails sv ss folder limit since before sortA incH sender hasA).1.emailsOf
        = some ((((pySorted (!sortA) (sv.searchFn c)).filter (acceptMsg sv hasA)).take
            limit).map (summaryOf sv incH))
    ∧ fetchedIds (search_emails sv ss folder limit since before sortA incH sender hasA).2
        = (pySorted (!sortA) (sv.searchFn c)).take
            (fetchedIds
              (search_emails sv ss folder limit since before sortA incH sender hasA).2).length
    ∧ (fetchedIds
          (search_emails sv ss folder limit since before sortA incH sender hasA).2).filter
          (acceptMsg sv hasA)
        = ((pySorted (!sortA) (sv.searchFn c)).filter (acceptMsg sv hasA)).take limit
    ∧ (pySorted (!sortA) (sv.searchFn c)).Perm (sv.searchFn c)
    ∧ (sortA = true → (pySorted (!sortA) (sv.searchFn c)).Sorted (· ≤ ·))
    ∧ (sortA = false → (pySorted (!sortA) (sv.searchFn c)).Sorted (· ≥ ·)) := by
  have hloop := searchLoop_clean sv limit hasA incH (pySorted (!sortA) (sv.searchFn c)) []
      (by simp) hclean
  simp only [List.length_nil, Nat.sub_zero, List.nil_append] at hloop
  have hrun : search_emails sv ss folder limit since before sortA incH sender hasA
      = (if (((pySorted (!sortA) (sv.searchFn c)).filter (acceptMsg sv hasA)).take
              limit).map (summaryOf sv incH) = []
         then SearchResult.ok [] (some ("No emails found."))
         else SearchResult.ok
            ((((pySorted (!sortA) (sv.searchFn c)).filter (acceptMsg sv hasA)).take
              limit).map (summaryOf sv incH)) none,
         [Event.connect, Event.selectFolder folder, Event.search c]
           ++ (scanIds (acceptMsg sv hasA) (pySorted (!sortA) (sv.searchFn c)) limit).map
               Event.fetch) := by
    unfold search_emails
    rw [hok, hbuild]
    simp only [not_true, Bool.true_eq_false, if_false, ite_true, ite_false]
    rw [if_neg hc, hloop]
  have hids : fetchedIds
      (search_emails sv ss folder limit since before sortA incH sender hasA).2
      = scanIds (acceptMsg sv hasA) (pySorted (!sortA) (sv.searchFn c)) limit := by
    rw [hrun]
    show fetchedIds ([Event.connect, Event.selectFolder folder, Event.search c]
      ++ (scanIds (acceptMsg sv hasA) (pySorted (!sortA) (sv.searchFn c)) limit).map
          Event.fetch) = _
    rw [fetchedIds_append, fetchedIds_map_fetch]
    simp [fetchedIds]
  refine ⟨?_, ?_, ?_, ?_, ?_, ?_⟩
  · rw [hrun]
    show SearchResult.emailsOf (if _ = [] then _ else _) = _
    by_cases hM : (((pySorted (!sortA) (sv.searchFn c)).filter (acceptMsg sv hasA)).take
        limit).map (summaryOf sv incH) = []
    · rw [if_pos hM, hM]
      rfl
    · rw [if_neg hM]
      rfl
  · rw [hids]
    exact scanIds_take _ _ _
  · rw [hids]
    exact scanIds_filter _ _ _
  · unfold pySorted
    cases sortA with
    | true =>
      simp only [Bool.not_true, Bool.false_eq_true, if_false]
      exact List.perm_insertionSort _ _
    | false =>
      simp only [Bool.not_false, if_true]
      exact List.perm_insertionSort _ _
  · intro hsa
    subst hsa
    unfold pySorted
    simp only [Bool.not_true, Bool.false_eq_true, if_false]
    exact List.sorted_insertionSort _ _
  · intro hsa
    subst hsa
    unfold pySorted
    simp only [Bool.not_false, if_true]
    exact List.sorted_insertionSort _ _

/-- C4 witness: three messages, descending default order, limit 2. -/
theorem search_emails_pipeline_witness :
    (search_emails svThree "x" "INBOX" 2 none none false false none false).1.emailsOf
      = some ((((pySorted (!false) (svThree.searchFn ["TEXT", "x"])).filter
          (acceptMsg svThree false)).take 2).map (summaryOf svThree false)) :=
  (search_emails_pipeline svThree "x" "INBOX" 2 none none false false none false
    ["TEXT", "x"] rfl (by decide) (by decide) (by decide)).1
